import Mathlib

/-!
Shallow embedding of `src/main.go` of WhiteChocolateMacademiaNut, a client
for the Chromium remote-debugging protocol.  Pure data flow is modelled
directly; the external collaborators (HTTP GET, the websocket transport,
`encoding/json`'s syntactic parse, the file reader, the wall clock) are
modelled as explicit inputs to the operation functions, and the operations
record their transport interactions as an event trace.
-/

namespace WCMN

/-! ### Go strings: `strings.Contains`

`strings.Contains(s, substr)` reports whether `substr` is within `s`
(case-sensitive byte substring search).  We embed it as a scan over the
character list: at each position, test whether `sub` is a leading segment. -/

/-- Does `s` start with `sub`?  (Embedding of the leading-segment test that
`strings.Contains` performs at each candidate position.) -/
def goStartsWith : List Char → List Char → Bool
  | _, [] => true
  | [], _ :: _ => false
  | a :: s, b :: t => a == b && goStartsWith s t

/-- Embedding of Go `strings.Contains s sub`: scan every suffix of `s` for
`sub` as a leading segment. -/
def goContains : List Char → List Char → Bool
  | [], sub => sub.isEmpty
  | a :: s, sub => goStartsWith (a :: s) sub || goContains s sub

/-- Specification-side predicate: `sub` occurs contiguously inside `s`. -/
def SubstrOf (sub s : List Char) : Prop := ∃ l r, s = l ++ sub ++ r

theorem goStartsWith_iff (s sub : List Char) :
    goStartsWith s sub = true ↔ ∃ r, s = sub ++ r := by
  induction sub generalizing s with
  | nil => simp [goStartsWith]
  | cons b t ih =>
    cases s with
    | nil => simp [goStartsWith]
    | cons a s =>
      simp only [goStartsWith, Bool.and_eq_true, beq_iff_eq, ih, List.cons_append,
        List.cons.injEq]
      constructor
      · rintro ⟨rfl, r, rfl⟩
        exact ⟨r, rfl, rfl⟩
      · rintro ⟨r, rfl, rfl⟩
        exact ⟨rfl, r, rfl⟩

theorem goContains_iff (s sub : List Char) :
    goContains s sub = true ↔ SubstrOf sub s := by
  induction s with
  | nil =>
    simp only [goContains, List.isEmpty_iff, SubstrOf]
    constructor
    · rintro rfl
      exact ⟨[], [], rfl⟩
    · rintro ⟨l, r, h⟩
      have := List.append_eq_nil.mp h.symm
      exact (List.append_eq_nil.mp this.1).2
  | cons a s ih =>
    simp only [goContains, Bool.or_eq_true, goStartsWith_iff, ih, SubstrOf]
    constructor
    · rintro (⟨r, h⟩ | ⟨l, r, h⟩)
      · exact ⟨[], r, by simp [h]⟩
      · exact ⟨a :: l, r, by simp [h]⟩
    · rintro ⟨l, r, h⟩
      cases l with
      | nil => exact Or.inl ⟨r, by simpa using h⟩
      | cons x l =>
        rw [List.cons_append, List.cons_append] at h
        exact Or.inr ⟨l, r, (List.cons.injEq _ _ _ _ ▸ h).2⟩

instance (sub s : List Char) : Decidable (SubstrOf sub s) :=
  decidable_of_iff _ (goContains_iff s sub)

theorem decide_SubstrOf (sub s : List Char) :
    decide (SubstrOf sub s) = goContains s sub := by
  rcases h : goContains s sub with _ | _
  · simp [decide_eq_false_iff_not, (goContains_iff s sub).symm, h]
  · simp [decide_eq_true_eq, (goContains_iff s sub).symm, h]

/-! ### Data model (`src/main.go` struct declarations)

Go `float64` epoch-second fields (`Expires`) are embedded as `Int`: the only
arithmetic the program performs on them is `time.Now().Unix() + 10*365*24*60*60`
on `int64` values, so no floating-point behaviour is observable. -/

/-- `DebugData`: JSON structure returned by Chromium's `/json` endpoint. -/
structure DebugData where
  description : String
  devtoolsFrontendURL : String
  faviconURL : String
  id : String
  title : String
  pageType : String
  url : String
  webSocketDebuggerURL : String
deriving DecidableEq, Repr

/-- `Cookie`: JSON structure returned by the Chromium websocket. -/
structure Cookie where
  name : String
  value : String
  domain : String
  path : String
  expires : Int
  size : Int
  httpOnly : Bool
  secure : Bool
  session : Bool
  sameSite : String
  priority : String
deriving DecidableEq, Repr

/-- `LightCookie`: reduced export record (name, value, domain, path, and a
rewritten `expirationDate`). -/
structure LightCookie where
  name : String
  value : String
  domain : String
  path : String
  expires : Int
deriving DecidableEq, Repr

/-- `WebsocketResponseNested`: the `result` object of the websocket response. -/
structure WebsocketResponseNested where
  cookies : List Cookie
deriving DecidableEq, Repr

/-- `WebsocketResponseRoot`: the raw response envelope from the websocket. -/
structure WebsocketResponseRoot where
  id : Int
  result : WebsocketResponseNested
deriving DecidableEq, Repr

/-! ### `encoding/json` decoding into the above structs

A JSON document is embedded as a `Json` tree (numbers as `Int`: every number
the program touches is an integer).  `json.Unmarshal`'s syntactic parse of raw
bytes is a collaborator and stays abstract (see `WireMsg` below); the
struct-mapping phase is embedded here: a struct decodes from an object (keys
matched by json tag, last duplicate wins, unknown keys ignored, missing keys
leave the zero value, `null` leaves the zero value, a type mismatch is an
error), a slice decodes from an array elementwise or from `null`. -/

inductive Json where
  | null : Json
  | bool : Bool → Json
  | num : Int → Json
  | str : String → Json
  | arr : List Json → Json
  | obj : List (String × Json) → Json

/-- Value of the last binding of key `k` in a decoded JSON object (Go's
decoder processes keys in order, each assignment overwriting the previous). -/
def jsonField (fields : List (String × Json)) (k : String) : Option Json :=
  (fields.reverse.find? (fun p => p.1 == k)).map (·.2)

/-- Decode a JSON value into a Go `string` field with zero value `dflt`. -/
def decodeStr (dflt : String) : Json → Option String
  | .null => some dflt
  | .str s => some s
  | _ => none

/-- Decode a JSON value into a Go numeric field with zero value `dflt`. -/
def decodeNum (dflt : Int) : Json → Option Int
  | .null => some dflt
  | .num n => some n
  | _ => none

/-- Decode a JSON value into a Go `bool` field with zero value `dflt`. -/
def decodeBool (dflt : Bool) : Json → Option Bool
  | .null => some dflt
  | .bool b => some b
  | _ => none

/-- Decode one field of a struct: a missing key leaves the zero value, a
present key must decode, a decoding failure aborts the whole struct. -/
def structField (fields : List (String × Json)) (k : String)
    (dec : Json → Option α) (zero : α) : Option α :=
  match jsonField fields k with
  | none => some zero
  | some v => dec v

/-- `json.Unmarshal` into `Cookie` (field names are the json tags). -/
def unmarshalCookie : Json → Option Cookie
  | .null => some ⟨"", "", "", "", 0, 0, false, false, false, "", ""⟩
  | .obj fs => do
    let name ← structField fs "name" (decodeStr "") ""
    let value ← structField fs "value" (decodeStr "") ""
    let domain ← structField fs "domain" (decodeStr "") ""
    let path ← structField fs "path" (decodeStr "") ""
    let expires ← structField fs "expires" (decodeNum 0) 0
    let size ← structField fs "size" (decodeNum 0) 0
    let httpOnly ← structField fs "httpOnly" (decodeBool false) false
    let secure ← structField fs "secure" (decodeBool false) false
    let session ← structField fs "session" (decodeBool false) false
    let sameSite ← structField fs "sameSite" (decodeStr "") ""
    let priority ← structField fs "priority" (decodeStr "") ""
    pure ⟨name, value, domain, path, expires, size, httpOnly, secure, session,
      sameSite, priority⟩
  | _ => none

/-- `json.Unmarshal` into a `[]Cookie` slice value. -/
def unmarshalCookieList : Json → Option (List Cookie)
  | .null => some []
  | .arr xs => xs.mapM unmarshalCookie
  | _ => none

/-- `json.Unmarshal` into `WebsocketResponseNested`. -/
def unmarshalNested : Json → Option WebsocketResponseNested
  | .null => some ⟨[]⟩
  | .obj fs => do
    let cookies ← structField fs "cookies" unmarshalCookieList []
    pure ⟨cookies⟩
  | _ => none

/-- `json.Unmarshal` into `WebsocketResponseRoot`. -/
def unmarshalRoot : Json → Option WebsocketResponseRoot
  | .obj fs => do
    let id ← structField fs "id" (decodeNum 0) 0
    let result ← structField fs "result" unmarshalNested ⟨[]⟩
    pure ⟨id, result⟩
  | _ => none

/-- `json.Unmarshal` into `DebugData`. -/
def unmarshalDebugData : Json → Option DebugData
  | .null => some ⟨"", "", "", "", "", "", "", ""⟩
  | .obj fs => do
    let description ← structField fs "description" (decodeStr "") ""
    let devtools ← structField fs "devtoolsFrontendUrl" (decodeStr "") ""
    let favicon ← structField fs "faviconUrl" (decodeStr "") ""
    let id ← structField fs "id" (decodeStr "") ""
    let title ← structField fs "title" (decodeStr "") ""
    let pageType ← structField fs "type" (decodeStr "") ""
    let url ← structField fs "url" (decodeStr "") ""
    let ws ← structField fs "webSocketDebuggerUrl" (decodeStr "") ""
    pure ⟨description, devtools, favicon, id, title, pageType, url, ws⟩
  | _ => none

/-- `json.Unmarshal` into the `[]DebugData` target list. -/
def unmarshalDebugList : Json → Option (List DebugData)
  | .null => some []
  | .arr xs => xs.mapM unmarshalDebugData
  | _ => none

/-! ### Filter and transcoder (the loop bodies of `PrintDebugData` and
`DumpCookies`) -/

/-- Keep test of the cookie loops: `!grepFlag || strings.Contains(name, grep)
|| strings.Contains(domain, grep)` with `grepFlag := len(grep) > 0`. -/
def keepCookie (grep : String) (c : Cookie) : Bool :=
  !(decide (grep.length > 0)) || goContains c.name.data grep.data
    || goContains c.domain.data grep.data

/-- Keep test of the target loop: `!grepFlag || strings.Contains(title, grep)
|| strings.Contains(url, grep)`. -/
def keepTarget (grep : String) (d : DebugData) : Bool :=
  !(decide (grep.length > 0)) || goContains d.title.data grep.data
    || goContains d.url.data grep.data

/-- `PrintDebugData`: the ordered list of targets whose fields get printed. -/
def PrintDebugData (grep : String) : List DebugData → List DebugData
  | [] => []
  | d :: rest =>
    if keepTarget grep d then d :: PrintDebugData grep rest
    else PrintDebugData grep rest

/-- The `LightCookie` built for one kept cookie in "modified" mode: the four
identity fields are copied and `Expires` is rewritten to
`time.Now().Unix() + 10*365*24*60*60`. -/
def lightOf (now : Int) (c : Cookie) : LightCookie :=
  ⟨c.name, c.value, c.domain, c.path, now + 10 * 365 * 24 * 60 * 60⟩

/-- The "modified" loop of `DumpCookies`: kept cookies are appended to
`lightCookieList` as `LightCookie`s, in input order. -/
def dumpModified (now : Int) (grep : String) : List Cookie → List LightCookie
  | [] => []
  | c :: rest =>
    if keepCookie grep c then lightOf now c :: dumpModified now grep rest
    else dumpModified now grep rest

/-- The "human" loop of `DumpCookies`: the ordered list of cookies whose
native fields get printed. -/
def dumpHuman (grep : String) : List Cookie → List Cookie
  | [] => []
  | c :: rest =>
    if keepCookie grep c then c :: dumpHuman grep rest
    else dumpHuman grep rest

/-! ### Operations

Collaborators are explicit inputs: `Fetch` is the outcome of the discovery
HTTP GET, `dialOk`/`sendOk` the outcomes of the websocket dial and write,
`WireMsg` the one inbound websocket message (raw bytes plus the result of
`encoding/json`'s syntactic parse of those bytes), `fileContent` the outcome
of `os.ReadFile`, `now` the wall clock.  Each operation returns the trace of
its transport interactions; `log.Fatalf` is `fatal`, a Go runtime panic is
`panicked`. -/

/-- One transport interaction of an operation. -/
inductive Event where
  | dial : String → Event
  | send : String → Event
  | recv : Event
deriving DecidableEq, Repr

/-- Outcome of one operation: normal return, `log.Fatalf`, or runtime panic;
each records the transport events already performed. -/
inductive GoResult (α : Type) where
  | ok : List Event → α → GoResult α
  | fatal : List Event → String → GoResult α
  | panicked : List Event → GoResult α
deriving DecidableEq, Repr

/-- Transport events an operation performed before finishing. -/
def traceOf : GoResult α → List Event
  | .ok tr _ => tr
  | .fatal tr _ => tr
  | .panicked tr => tr

/-- Outcome of the discovery HTTP GET: dial failure, body-read failure, or a
delivered body (`none` = bytes that are not syntactically valid JSON).  The
HTTP status code is carried to record what the code does with it. -/
inductive Fetch where
  | dialErr : Fetch
  | readErr : Nat → Fetch
  | success : Nat → Option Json → Fetch

/-- `GetDebugData`: GET the `/json` endpoint, read the body, unmarshal a
`[]DebugData`. -/
def GetDebugData : Fetch → Except String (List DebugData)
  | .dialErr => .error "Failed to get debug data"
  | .readErr _ => .error "Failed to read response body"
  | .success _ body =>
    match body.bind unmarshalDebugList with
    | none => .error "Failed to unmarshal JSON"
    | some l => .ok l

/-- The one inbound websocket message: its raw bytes and the result of
`encoding/json`'s syntactic parse of those bytes (`none` = invalid JSON). -/
structure WireMsg where
  bytes : String
  json : Option Json

/-- `conn.SetReadLimit(10 * 1024 * 1024)`. -/
def readLimit : Nat := 10 * 1024 * 1024

/-- The command sent by `DumpCookies`. -/
def getAllCookiesMsg : String := "\x7b\"id\": 1, \"method\":\"Network.getAllCookies\"\x7d"

/-- The command sent by `ClearCookies`. -/
def clearBrowserCookiesMsg : String :=
  "\x7b\"id\": 1, \"method\": \"Network.clearBrowserCookies\"\x7d"

/-- The command sent by `LoadCookies`: the file's bytes are spliced verbatim by
`fmt.Sprintf` into the `cookies` parameter. -/
def loadMessage (content : String) : String :=
  "\x7b\"id\": 1, \"method\":\"Network.setCookies\", \"params\":\x7b\"cookies\":"
    ++ content ++ "\x7d\x7d"

/-- What `DumpCookies` prints. -/
inductive DumpOut where
  | raw : String → DumpOut
  | modified : List LightCookie → DumpOut
  | human : List Cookie → DumpOut
deriving DecidableEq, Repr

/-- `DumpCookies`: dial `debugList[0]`'s websocket URL, send the
get-all-cookies command, read one message (failing beyond the read limit),
unmarshal it, then print per `format`. -/
def DumpCookies (debugList : List DebugData) (format grep : String)
    (dialOk sendOk : Bool) (inbound : WireMsg) (now : Int) : GoResult DumpOut :=
  match debugList with
  | [] => .panicked []
  | d :: _ =>
    let url := d.webSocketDebuggerURL
    if !dialOk then .fatal [.dial url] "Failed to dial websocket"
    else if !sendOk then
      .fatal [.dial url, .send getAllCookiesMsg] "Failed to send message"
    else
      let tr := [.dial url, .send getAllCookiesMsg, .recv]
      if inbound.bytes.length > readLimit then .fatal tr "Failed to read response"
      else
        match inbound.json.bind unmarshalRoot with
        | none => .fatal tr "Failed to unmarshal JSON"
        | some root =>
          if format == "raw" then .ok tr (.raw inbound.bytes)
          else if format == "modified" then
            .ok tr (.modified (dumpModified now grep root.result.cookies))
          else .ok tr (.human (dumpHuman grep root.result.cookies))

/-- `ClearCookies`: dial `debugList[0]`'s websocket URL and send the clear
command; nothing is ever read back. -/
def ClearCookies (debugList : List DebugData) (dialOk sendOk : Bool) :
    GoResult Unit :=
  match debugList with
  | [] => .panicked []
  | d :: _ =>
    let url := d.webSocketDebuggerURL
    if !dialOk then .fatal [.dial url] "Failed to dial websocket"
    else if !sendOk then
      .fatal [.dial url, .send clearBrowserCookiesMsg] "Failed to send message"
    else .ok [.dial url, .send clearBrowserCookiesMsg] ()

/-- `LoadCookies`: read the load file, dial `debugList[0]`'s websocket URL and
send the set-cookies command with the file bytes spliced in; nothing is ever
read back.  (`fileContent = none` models `os.ReadFile` failing.) -/
def LoadCookies (debugList : List DebugData) (fileContent : Option String)
    (dialOk sendOk : Bool) : GoResult Unit :=
  match fileContent with
  | none => .fatal [] "Failed to read file"
  | some content =>
    match debugList with
    | [] => .panicked []
    | d :: _ =>
      let url := d.webSocketDebuggerURL
      if !dialOk then .fatal [.dial url] "Failed to dial websocket"
      else if !sendOk then
        .fatal [.dial url, .send (loadMessage content)] "Failed to send message"
      else .ok [.dial url, .send (loadMessage content)] ()

/-! ### Helper lemmas -/

theorem keepCookie_empty_grep (c : Cookie) : keepCookie "" c = true := by
  simp [keepCookie]

theorem keepTarget_empty_grep (d : DebugData) : keepTarget "" d = true := by
  simp [keepTarget]

theorem dumpHuman_eq_filter (grep : String) (cs : List Cookie) :
    dumpHuman grep cs = cs.filter (keepCookie grep) := by
  induction cs with
  | nil => rfl
  | cons c rest ih => simp only [dumpHuman, List.filter_cons, ih]

theorem PrintDebugData_eq_filter (grep : String) (ds : List DebugData) :
    PrintDebugData grep ds = ds.filter (keepTarget grep) := by
  induction ds with
  | nil => rfl
  | cons d rest ih => simp only [PrintDebugData, List.filter_cons, ih]

theorem length_pos_of_ne_empty {t : String} (ht : t ≠ "") : t.length > 0 := by
  cases t with
  | mk l =>
    cases l with
    | nil => exact absurd rfl ht
    | cons a l => exact Nat.succ_pos _

theorem keepCookie_of_ne {t : String} (ht : t ≠ "") (c : Cookie) :
    keepCookie t c =
      (decide (SubstrOf t.data c.name.data) || decide (SubstrOf t.data c.domain.data)) := by
  have h := length_pos_of_ne_empty ht
  simp [keepCookie, h, decide_SubstrOf, Bool.or_assoc]

theorem keepTarget_of_ne {t : String} (ht : t ≠ "") (d : DebugData) :
    keepTarget t d =
      (decide (SubstrOf t.data d.title.data) || decide (SubstrOf t.data d.url.data)) := by
  have h := length_pos_of_ne_empty ht
  simp [keepTarget, h, decide_SubstrOf, Bool.or_assoc]

/-! ### Claim theorems -/

/-- C1: transcoding in "modified" mode yields exactly one `LightCookie` per
kept input cookie, in input order, copying name, value, domain and path, and
setting `expirationDate` to `now + 315360000` (ten years) regardless of the
input cookie's own `expires` value. -/
theorem claim_C1 (cs : List Cookie) (grep : String) (now : Int) :
    dumpModified now grep cs =
      (cs.filter (keepCookie grep)).map
        (fun c => ⟨c.name, c.value, c.domain, c.path, now + 315360000⟩) := by
  induction cs with
  | nil => rfl
  | cons c rest ih =>
    simp only [dumpModified, List.filter_cons]
    rcases h : keepCookie grep c with _ | _
    · simpa [h] using ih
    · simp only [h, if_true, List.map_cons, ih]
      refine congrArg (· :: _) ?_
      simp only [lightOf, LightCookie.mk.injEq, true_and]
      norm_num

/-- C2: filtering with the empty term is the identity on both cookie lists
and target lists; filtering with a non-empty term keeps exactly the ordered
subset whose name/domain (cookies) or title/url (targets) contain the term as
a case-sensitive substring. -/
theorem claim_C2 (cookies : List Cookie) (targets : List DebugData) (t : String) :
    (dumpHuman "" cookies = cookies ∧ PrintDebugData "" targets = targets) ∧
    (t ≠ "" →
      dumpHuman t cookies =
        cookies.filter (fun c =>
          decide (SubstrOf t.data c.name.data) || decide (SubstrOf t.data c.domain.data)) ∧
      PrintDebugData t targets =
        targets.filter (fun d =>
          decide (SubstrOf t.data d.title.data) || decide (SubstrOf t.data d.url.data))) := by
  constructor
  · constructor
    · rw [dumpHuman_eq_filter]
      exact List.filter_eq_self.mpr fun c _ => keepCookie_empty_grep c
    · rw [PrintDebugData_eq_filter]
      exact List.filter_eq_self.mpr fun d _ => keepTarget_empty_grep d
  · intro ht
    constructor
    · rw [dumpHuman_eq_filter, funext (keepCookie_of_ne ht)]
    · rw [PrintDebugData_eq_filter, funext (keepTarget_of_ne ht)]

/-- Concrete target used to instantiate closed statements. -/
def sampleTarget : DebugData :=
  ⟨"", "", "", "A1", "Inbox - mail", "page", "https://mail.example.com/u/0",
    "ws://localhost:9222/devtools/page/A1"⟩

/-- A decoded websocket response carrying id 1 and an empty cookie list. -/
def respJson1 : Json :=
  Json.obj [("id", Json.num 1), ("result", Json.obj [("cookies", Json.arr [])])]

/-- The same response except that its id is 2. -/
def respJson2 : Json :=
  Json.obj [("id", Json.num 2), ("result", Json.obj [("cookies", Json.arr [])])]

/-- Raw bytes of `respJson1`. -/
def respBytes1 : String := "\x7b\"id\":1,\"result\":\x7b\"cookies\":[]\x7d\x7d"

/-- Raw bytes of `respJson2`: they differ from `respBytes1` only in the id
digit. -/
def respBytes2 : String := "\x7b\"id\":2,\"result\":\x7b\"cookies\":[]\x7d\x7d"

/-- C3 counterexample: a response with HTTP status 500 and body `[]` makes
`GetDebugData` return an empty target list successfully, although the claim
requires a non-success status to fail with a `DiscoveryError`.  The code
never reads `resp.StatusCode`. -/
theorem claim_C3_cex :
    GetDebugData (.success 500 (some (Json.arr []))) = .ok [] := rfl

/-- C3 amended: discovery ignores the HTTP status entirely, and fails exactly
when the connection cannot be established, the body cannot be read, or the
body is not a well-formed JSON document unmarshalling as a `[]DebugData`. -/
theorem claim_C3 (s₁ s₂ : Nat) (body : Option Json) (f : Fetch) :
    GetDebugData (.success s₁ body) = GetDebugData (.success s₂ body) ∧
    ((∃ e, GetDebugData f = .error e) ↔
      f = .dialErr ∨ (∃ s, f = .readErr s) ∨
        (∃ s b, f = .success s b ∧ b.bind unmarshalDebugList = none)) := by
  constructor
  · rfl
  · cases f with
    | dialErr => simp [GetDebugData]
    | readErr s => simp [GetDebugData]
    | success s b =>
      constructor
      · rintro ⟨e, he⟩
        rcases h : b.bind unmarshalDebugList with _ | l
        · exact Or.inr (Or.inr ⟨s, b, rfl, h⟩)
        · rw [GetDebugData, h] at he
          exact absurd he (by simp)
      · rintro (h | ⟨s', h⟩ | ⟨s', b', hf, hnone⟩)
        · exact absurd h (by simp)
        · exact absurd h (by simp)
        · injection hf with h1 h2
          subst h1; subst h2
          rw [GetDebugData, hnone]
          exact ⟨"Failed to unmarshal JSON", rfl⟩

/-- C4 counterexample: in "raw" mode with a payload (`[]`) that does not
unmarshal as a response envelope, `DumpCookies` aborts at the unmarshal step
and emits nothing, although the claim requires every payload to be echoed
verbatim in raw mode. -/
theorem claim_C4_cex :
    DumpCookies [sampleTarget] "raw" "" true true ⟨"[]", some (Json.arr [])⟩ 0 =
      .fatal [.dial sampleTarget.webSocketDebuggerURL, .send getAllCookiesMsg, .recv]
        "Failed to unmarshal JSON" := rfl

/-- C4 amended: in "raw" mode, for every inbound payload that is within the
read limit and unmarshals as a response envelope, the raw bytes are emitted
verbatim and the filter term has no effect; payloads failing to unmarshal
abort the operation before any output, even in raw mode. -/
theorem claim_C4 (l : List DebugData) (d : DebugData) (rest : List DebugData)
    (grep bytes : String) (j : Json) (root : WebsocketResponseRoot) (now : Int)
    (hl : l = d :: rest) (hb : bytes.length ≤ readLimit)
    (hj : unmarshalRoot j = some root) :
    DumpCookies l "raw" grep true true ⟨bytes, some j⟩ now =
      .ok [.dial d.webSocketDebuggerURL, .send getAllCookiesMsg, .recv]
        (.raw bytes) := by
  subst hl
  simp [DumpCookies, Nat.not_lt.mpr hb, hj]

/-- C4 witness: a concrete well-formed response in raw mode with a non-empty
filter term is echoed verbatim. -/
theorem claim_C4_witness :
    DumpCookies [sampleTarget] "raw" "session" true true
        ⟨respBytes1, some respJson1⟩ 7 =
      .ok [.dial sampleTarget.webSocketDebuggerURL, .send getAllCookiesMsg, .recv]
        (.raw respBytes1) :=
  claim_C4 [sampleTarget] sampleTarget [] "session" respBytes1 respJson1
    ⟨1, ⟨[]⟩⟩ 7 rfl (by decide) (by decide)

/-- C5: loading cookies sends exactly one outbound command, the set-cookies
command with the file's bytes spliced in verbatim as the `cookies` parameter,
for arbitrary file bytes (no validation), and never performs a receive. -/
theorem claim_C5 (d : DebugData) (rest : List DebugData) (content : String) :
    LoadCookies (d :: rest) (some content) true true =
      .ok [.dial d.webSocketDebuggerURL, .send (loadMessage content)] () ∧
    loadMessage content =
      "\x7b\"id\": 1, \"method\":\"Network.setCookies\", \"params\":\x7b\"cookies\":"
        ++ content ++ "\x7d\x7d" ∧
    Event.recv ∉ traceOf (LoadCookies (d :: rest) (some content) true true) := by
  refine ⟨rfl, rfl, ?_⟩
  simp [LoadCookies, traceOf]

/-- C6: clearing cookies sends the clear command and returns successfully;
no branch of the operation ever performs a receive (the model takes no
inbound message at all), so the outcome cannot depend on whether the target
answers. -/
theorem claim_C6 (l : List DebugData) (dialOk sendOk : Bool) (d : DebugData)
    (rest : List DebugData) :
    Event.recv ∉ traceOf (ClearCookies l dialOk sendOk) ∧
    (l = d :: rest → ClearCookies l true true =
      .ok [.dial d.webSocketDebuggerURL, .send clearBrowserCookiesMsg] ()) := by
  constructor
  · cases l with
    | nil => simp [ClearCookies, traceOf]
    | cons x rest' =>
      cases dialOk <;> cases sendOk <;> simp [ClearCookies, traceOf]
  · rintro rfl
    rfl

theorem DumpCookies_true_true (d : DebugData) (rest : List DebugData)
    (format grep : String) (inbound : WireMsg) (now : Int) :
    DumpCookies (d :: rest) format grep true true inbound now =
      (if inbound.bytes.length > readLimit then
        .fatal [.dial d.webSocketDebuggerURL, .send getAllCookiesMsg, .recv]
          "Failed to read response"
      else
        match inbound.json.bind unmarshalRoot with
        | none =>
          .fatal [.dial d.webSocketDebuggerURL, .send getAllCookiesMsg, .recv]
            "Failed to unmarshal JSON"
        | some root =>
          if format == "raw" then
            .ok [.dial d.webSocketDebuggerURL, .send getAllCookiesMsg, .recv]
              (.raw inbound.bytes)
          else if format == "modified" then
            .ok [.dial d.webSocketDebuggerURL, .send getAllCookiesMsg, .recv]
              (.modified (dumpModified now grep root.result.cookies))
          else
            .ok [.dial d.webSocketDebuggerURL, .send getAllCookiesMsg, .recv]
              (.human (dumpHuman grep root.result.cookies))) := rfl

/-- C7: every operation dials the websocket URL of the first discovered
target, whatever else the target list contains: each trace starts with that
dial event. -/
theorem claim_C7 (d : DebugData) (rest : List DebugData) (format grep : String)
    (dialOk sendOk : Bool) (inbound : WireMsg) (now : Int) (content : String) :
    (∃ t, traceOf (DumpCookies (d :: rest) format grep dialOk sendOk inbound now) =
      .dial d.webSocketDebuggerURL :: t) ∧
    (∃ t, traceOf (ClearCookies (d :: rest) dialOk sendOk) =
      .dial d.webSocketDebuggerURL :: t) ∧
    (∃ t, traceOf (LoadCookies (d :: rest) (some content) dialOk sendOk) =
      .dial d.webSocketDebuggerURL :: t) := by
  refine ⟨?_, ?_, ?_⟩
  · cases dialOk
    · exact ⟨[], rfl⟩
    · cases sendOk
      · exact ⟨[.send getAllCookiesMsg], rfl⟩
      · refine ⟨[.send getAllCookiesMsg, .recv], ?_⟩
        rw [DumpCookies_true_true]
        split
        · rfl
        · split
          · rfl
          · split
            · rfl
            · split <;> rfl
  · cases dialOk <;> cases sendOk <;> exact ⟨_, rfl⟩
  · cases dialOk <;> cases sendOk <;> exact ⟨_, rfl⟩

/-- C8: with a session established, an inbound message whose bytes exceed the
10 MiB read limit makes the read fail fatally; the message is never delivered
to the unmarshal or print stages. -/
theorem claim_C8 (d : DebugData) (rest : List DebugData) (format grep : String)
    (inbound : WireMsg) (now : Int)
    (h : inbound.bytes.length > 10 * 1024 * 1024) :
    DumpCookies (d :: rest) format grep true true inbound now =
      .fatal [.dial d.webSocketDebuggerURL, .send getAllCookiesMsg, .recv]
        "Failed to read response" := by
  rw [DumpCookies]
  simp [readLimit, h]

/-- A message one byte past the 10 MiB read limit. -/
def bigMsg : String := String.mk (List.replicate (10 * 1024 * 1024 + 1) 'a')

/-- C8 witness: the oversized concrete message fails the read. -/
theorem claim_C8_witness :
    bigMsg.length > 10 * 1024 * 1024 ∧
    DumpCookies [sampleTarget] "raw" "" true true ⟨bigMsg, none⟩ 0 =
      .fatal [.dial sampleTarget.webSocketDebuggerURL, .send getAllCookiesMsg, .recv]
        "Failed to read response" := by
  have h : bigMsg.length > 10 * 1024 * 1024 := by
    show (List.replicate (10 * 1024 * 1024 + 1) 'a').length > 10 * 1024 * 1024
    rw [List.length_replicate]
    exact Nat.lt_succ_self _
  exact ⟨h, claim_C8 sampleTarget [] "raw" "" ⟨bigMsg, none⟩ 0 h⟩

/-- The leading bytes shared by every outbound command: the envelope id is
the literal 1. -/
def idPreamble : String := "\x7b\"id\": 1"

/-- C9 counterexample: two inbound responses identical except for the value
of their id field give different dump behaviour in "raw" mode, because raw
mode echoes the received bytes — which include the id — verbatim. -/
theorem claim_C9_cex :
    DumpCookies [sampleTarget] "raw" "" true true ⟨respBytes1, some respJson1⟩ 0 ≠
      DumpCookies [sampleTarget] "raw" "" true true ⟨respBytes2, some respJson2⟩ 0 := by
  decide

/-- C9 amended: every outbound command begins with the fixed envelope id 1,
and the decoded response id is never inspected: for fixed received bytes the
dump outcome is identical for any decoded id (raw mode, however, echoes the
bytes, so the id value re-surfaces through them). -/
theorem claim_C9 (l : List DebugData) (format grep : String) (dialOk sendOk : Bool)
    (bytes content : String) (j₁ j₂ : Json) (r₁ r₂ : WebsocketResponseRoot)
    (now : Int) (h₁ : unmarshalRoot j₁ = some r₁) (h₂ : unmarshalRoot j₂ = some r₂)
    (hres : r₁.result = r₂.result) :
    (∃ t, getAllCookiesMsg.data = idPreamble.data ++ t) ∧
    (∃ t, clearBrowserCookiesMsg.data = idPreamble.data ++ t) ∧
    (∃ t, (loadMessage content).data = idPreamble.data ++ t) ∧
    DumpCookies l format grep dialOk sendOk ⟨bytes, some j₁⟩ now =
      DumpCookies l format grep dialOk sendOk ⟨bytes, some j₂⟩ now := by
  refine ⟨⟨(", \"method\":\"Network.getAllCookies\"\x7d" : String).data, by decide⟩,
    ⟨(", \"method\": \"Network.clearBrowserCookies\"\x7d" : String).data, by decide⟩,
    ⟨((", \"method\":\"Network.setCookies\", \"params\":\x7b\"cookies\":" : String)
      ++ content ++ "\x7d\x7d").data, ?_⟩, ?_⟩
  · have hpre :
        ("\x7b\"id\": 1, \"method\":\"Network.setCookies\", \"params\":\x7b\"cookies\":" :
          String) =
        idPreamble ++ ", \"method\":\"Network.setCookies\", \"params\":\x7b\"cookies\":" := by
      decide
    rw [loadMessage, hpre]
    simp only [String.data_append, List.append_assoc]
  · cases l with
    | nil => rfl
    | cons d rest =>
      rw [DumpCookies, DumpCookies]
      cases dialOk
      · rfl
      · cases sendOk
        · rfl
        · by_cases hsz : bytes.length > readLimit
          · simp [hsz]
          · simp [hsz, h₁, h₂, hres]

/-- C9 witness: a concrete pair of decoded responses with ids 1 and 2 but
the same result give identical "modified"-mode outcomes, and the concrete
outbound commands all begin with id 1. -/
theorem claim_C9_witness :
    (∃ t, getAllCookiesMsg.data = idPreamble.data ++ t) ∧
    (∃ t, clearBrowserCookiesMsg.data = idPreamble.data ++ t) ∧
    (∃ t, (loadMessage "[]").data = idPreamble.data ++ t) ∧
    DumpCookies [sampleTarget] "modified" "" true true ⟨respBytes1, some respJson1⟩ 0 =
      DumpCookies [sampleTarget] "modified" "" true true ⟨respBytes1, some respJson2⟩ 0 :=
  claim_C9 [sampleTarget] "modified" "" true true respBytes1 "[]" respJson1 respJson2
    ⟨1, ⟨[]⟩⟩ ⟨2, ⟨[]⟩⟩ 0 (by decide) (by decide) (by decide)

/-- C10: with an empty discovered target list, each of the three websocket
operations panics on the unguarded `debugList[0]` index before any transport
interaction, instead of reporting one of the named fatal errors. -/
theorem claim_C10 (format grep : String) (dialOk sendOk : Bool) (inbound : WireMsg)
    (now : Int) (content : String) :
    DumpCookies [] format grep dialOk sendOk inbound now = .panicked [] ∧
    ClearCookies [] dialOk sendOk = .panicked [] ∧
    LoadCookies [] (some content) dialOk sendOk = .panicked [] :=
  ⟨rfl, rfl, rfl⟩

end WCMN
